import Mathlib

/-!
Verification of the airfare-analysis dashboard (src/main.py,
class AirfarePredictionApp) against its natural-language specification.

The embedding below translates the data model and the operations of the
dashboard into executable Lean definitions:

* a pandas DataFrame row of processed-data.csv becomes the structure Row,
  the Data Store a List Row;
* the four dropdown widgets become the structure Selection holding their
  string values (the empty string is the unset state);
* fares, coordinates and distances are rationals, years and quarters are
  integers; a quarterly timestamp (pandas PeriodIndex(...).to_timestamp)
  is encoded order-faithfully as the integer 4 * year + (quarter - 1);
* the analysis_results Div is abstracted to the inductive Display: the
  placeholder text (Est. Price: dollar dash) or a two-decimal rendering of
  a concrete value;
* the five pre-trained model pipelines are opaque parameters (PredictEnv),
  the three Prophet forecast JSON tables are association lists from route
  string to forecast records (ProphetTables).

Python function by Python function, each definition names the method of
main.py it translates, with line numbers.
-/

namespace AirfareApp

/-- One record of the Data Store (a row of data/processed-data.csv as read in
AirfarePredictionApp.__init__, main.py line 47), restricted to the columns the
application reads. -/
structure Row where
  airport_name_concat_1 : String
  airport_name_concat_2 : String
  airport_iata_1 : String
  airport_iata_2 : String
  state_1 : String
  state_2 : String
  latitude_1 : ℚ
  longitude_1 : ℚ
  latitude_2 : ℚ
  longitude_2 : ℚ
  nsmiles : ℚ
  year : ℤ
  quarter : ℤ
  season : String
  fare : ℚ
  fare_lg : ℚ
  fare_low : ℚ
  carrier_lg_name_concat : String
  carrier_low_name_concat : String
deriving DecidableEq

/-- The values of the four Select widgets (dropdown_origin, dropdown_destination,
dropdown_season, dropdown_ml_model; main.py lines 83-138). An empty string is the
unset state, exactly as in the widgets' options lists. -/
structure Selection where
  origin : String
  destination : String
  season : String
  model : String
deriving DecidableEq

/-- AirfarePredictionApp._get_filtered_data (main.py lines 206-228): starting
from a copy of the full Data Store, filter on airport_name_concat_1 when the
origin dropdown is non-empty, then on airport_name_concat_2 when the
destination dropdown is non-empty, then on season when filter_season is
requested and the season dropdown is non-empty. -/
def getFilteredData (df : List Row) (sel : Selection) (filter_season : Bool) : List Row :=
  let f1 := if sel.origin ≠ "" then
      df.filter (fun r => decide (r.airport_name_concat_1 = sel.origin))
    else df
  let f2 := if sel.destination ≠ "" then
      f1.filter (fun r => decide (r.airport_name_concat_2 = sel.destination))
    else f1
  if filter_season then
    if sel.season ≠ "" then
      f2.filter (fun r => decide (r.season = sel.season))
    else f2
  else f2

/-- Sample Data Store rows used by the concrete witnesses below. The numbers are
representative of processed-data.csv; no theorem depends on their exact values. -/
def rowSanLax : Row :=
  { airport_name_concat_1 := "SAN - San Diego International Airport"
    airport_name_concat_2 := "LAX - Los Angeles International Airport"
    airport_iata_1 := "SAN"
    airport_iata_2 := "LAX"
    state_1 := "California"
    state_2 := "California"
    latitude_1 := 33
    longitude_1 := -117
    latitude_2 := 34
    longitude_2 := -118
    nsmiles := 109
    year := 2024
    quarter := 2
    season := "Summer"
    fare := 150
    fare_lg := 180
    fare_low := 120
    carrier_lg_name_concat := "WN - Southwest Airlines"
    carrier_low_name_concat := "NK - Spirit Airlines" }

/-- A second sample row on another route and year. -/
def rowSanSfo : Row :=
  { airport_name_concat_1 := "SAN - San Diego International Airport"
    airport_name_concat_2 := "SFO - San Francisco International Airport"
    airport_iata_1 := "SAN"
    airport_iata_2 := "SFO"
    state_1 := "California"
    state_2 := "California"
    latitude_1 := 33
    longitude_1 := -117
    latitude_2 := 38
    longitude_2 := -122
    nsmiles := 447
    year := 2023
    quarter := 1
    season := "Winter"
    fare := 210
    fare_lg := 250
    fare_low := 160
    carrier_lg_name_concat := "UA - United Airlines"
    carrier_low_name_concat := "WN - Southwest Airlines" }

/-- A selection with origin and destination set (season and model unset). -/
def selSanLax : Selection :=
  { origin := "SAN - San Diego International Airport"
    destination := "LAX - Los Angeles International Airport"
    season := ""
    model := "" }

/-- A bokeh Select widget object, as distinct from its string value. The
dropdowns dropdown_origin and dropdown_destination are such objects whose
current value sits in the field value. -/
structure Select where
  value : String
deriving DecidableEq

/-- The Python expression (self.dropdown_destination == blank) in the five
redraw functions compares the Select widget object itself, not its value,
with a string. A bokeh model never equals a string, so the comparison is
False whatever the dropdown's value (the source omits the .value access). -/
def selectObjEqStr (_widget : Select) (_text : String) : Bool := false

/-- The opacity computation that opens each of the five chart redraw
functions, verbatim in _redraw_holoviews_histogram (main.py 493-498),
_redraw_holoviews_line_chart (560-565), _redraw_holoviews_seasonal_boxplot
(766-772) and _redraw_holoviews_bar_chart (843-848, used for both carrier
variants): alpha = 0 when any([dropdown_origin.value == blank,
dropdown_destination == blank]) holds, else alpha = 0.8. -/
def redrawAlpha (dropdown_origin dropdown_destination : Select) : ℚ :=
  if dropdown_origin.value = "" ∨ selectObjEqStr dropdown_destination "" = true then 0
  else 0.8

/-- Rendered state of the analysis_results Div (main.py 147-153): either the
placeholder text (Est. Price: a dollar sign and a dash) or the estimate text
in which the value is rendered to two decimals by the f-string of
_update_analysis_results. -/
inductive Display where
  | placeholder
  | estimate (value : ℚ)
deriving DecidableEq

/-- AirfarePredictionApp._update_analysis_results (main.py 195-203): the
placeholder text when the value equals 0, else the formatted value. -/
def updateAnalysisResults (value : ℚ) : Display :=
  if value = 0 then Display.placeholder else Display.estimate value

/-- The pd.cut call of AirfarePredictionApp.feature_engineering (main.py
237-241): bins=[0, 500, 1500, 3000, 6000], labels short, medium, long, ultra.
pandas cut uses right-closed intervals, so a value is labelled short exactly
when it lies in (0, 500], medium in (500, 1500], long in (1500, 3000], ultra
in (3000, 6000]; values outside (0, 6000] get no label (NaN), here none. -/
def distanceBin (n : ℚ) : Option String :=
  if 0 < n ∧ n ≤ 500 then some "short"
  else if 500 < n ∧ n ≤ 1500 then some "medium"
  else if 1500 < n ∧ n ≤ 3000 then some "long"
  else if 3000 < n ∧ n ≤ 6000 then some "ultra"
  else none

/-- The distance binning as the claim words it (a reference definition written
from the claim's own words, for comparison only): short for distances below
500, medium below 1500, long below 3000, ultra below 6000. -/
def claimedDistanceBin (n : ℚ) : Option String :=
  if n < 500 then some "short"
  else if n < 1500 then some "medium"
  else if n < 3000 then some "long"
  else if n < 6000 then some "ultra"
  else none

/-- A Data Store row extended with the five derived feature columns of
AirfarePredictionApp.feature_engineering (main.py 231-242). -/
structure EngineeredRow extends Row where
  lat_diff : ℚ
  lon_diff : ℚ
  same_state : ℤ
  route : String
  distance_bin : Option String
deriving DecidableEq

/-- AirfarePredictionApp.feature_engineering (main.py 231-242), applied to one
row: lat_diff and lon_diff are destination minus origin coordinates, same_state
is the 0/1 flag of equal state columns, route joins the two IATA codes with a
dash, distance_bin is the pd.cut binning of nsmiles. -/
def featureEngineeringRow (r : Row) : EngineeredRow :=
  { toRow := r
    lat_diff := r.latitude_2 - r.latitude_1
    lon_diff := r.longitude_2 - r.longitude_1
    same_state := if r.state_1 = r.state_2 then 1 else 0
    route := r.airport_iata_1 ++ "-" ++ r.airport_iata_2
    distance_bin := distanceBin r.nsmiles }

/-- The usable_features record handed to the XGBoost or CatBoost pipeline in
_handle_analyze_button_click (main.py 1044-1063): the fixed ordered feature
set, with the year column overridden by the current calendar year. -/
structure ModelInput where
  year : ℤ
  quarter : ℤ
  season : String
  airport_iata_1 : String
  airport_iata_2 : String
  state_1 : String
  state_2 : String
  latitude_1 : ℚ
  longitude_1 : ℚ
  latitude_2 : ℚ
  longitude_2 : ℚ
  nsmiles : ℚ
  lat_diff : ℚ
  lon_diff : ℚ
  same_state : ℤ
  route : String
  distance_bin : Option String
deriving DecidableEq

/-- The model input built from the first filtered row in
_handle_analyze_button_click (main.py 1044-1063): feature engineering, then
the year override with the current calendar year (line 1051), then the
selection of usable_features. -/
def modelInputOfRow (r : Row) (current_year : ℤ) : ModelInput :=
  let e := featureEngineeringRow r
  { year := current_year
    quarter := e.quarter
    season := e.season
    airport_iata_1 := e.airport_iata_1
    airport_iata_2 := e.airport_iata_2
    state_1 := e.state_1
    state_2 := e.state_2
    latitude_1 := e.latitude_1
    longitude_1 := e.longitude_1
    latitude_2 := e.latitude_2
    longitude_2 := e.longitude_2
    nsmiles := e.nsmiles
    lat_diff := e.lat_diff
    lon_diff := e.lon_diff
    same_state := e.same_state
    route := e.route
    distance_bin := e.distance_bin }

/-- A pandas groupby-mean over an association of rows: one entry per distinct
key, carrying the arithmetic mean of the value column over the key's group
(df.groupby(key).agg(mean)). -/
def groupMeanBy {α β : Type} [DecidableEq β] (rows : List α) (key : α → β) (val : α → ℚ) :
    List (β × ℚ) :=
  ((rows.map key).dedup).map (fun k =>
    (k, ((rows.filter (fun r => decide (key r = k))).map val).sum /
      ((rows.filter (fun r => decide (key r = k))).length : ℚ)))

/-- Descending order on mean fare: the order in which sort_values(ascending
False) leaves the bar-chart rows. -/
def fareDescRel : String × ℚ → String × ℚ → Prop := fun a b => b.2 ≤ a.2

instance : DecidableRel fareDescRel := fun a b => inferInstanceAs (Decidable (b.2 ≤ a.2))

instance : IsTotal (String × ℚ) fareDescRel := ⟨fun a b => le_total b.2 a.2⟩

instance : IsTrans (String × ℚ) fareDescRel := ⟨fun _ _ _ h1 h2 => le_trans h2 h1⟩

/-- The column choice of _redraw_holoviews_bar_chart (main.py 853-855): group
by carrier_lg_name_concat with fare_lg for the largest-carrier variant, else
by carrier_low_name_concat with fare_low, over the season-filtered data. -/
def barGroups (df : List Row) (sel : Selection) (carrier_type : String) : List (String × ℚ) :=
  if carrier_type = "lg" then
    groupMeanBy (getFilteredData df sel true) Row.carrier_lg_name_concat Row.fare_lg
  else
    groupMeanBy (getFilteredData df sel true) Row.carrier_low_name_concat Row.fare_low

/-- The avg_data of _redraw_holoviews_bar_chart (main.py 857-865): group and
aggregate the mean fare by carrier name, sort by mean fare descending, truncate
to the first 10 rows, then keep only the rows with positive mean. -/
def redrawBarChartData (df : List Row) (sel : Selection) (carrier_type : String) :
    List (String × ℚ) :=
  ((List.insertionSort fareDescRel (barGroups df sel carrier_type)).take 10).filter
    (fun p => decide (0 < p.2))

/-- A pandas Series max (s.max()): none on an empty column, else the greatest
element. -/
def listMax {α : Type} [LinearOrder α] : List α → Option α
  | [] => none
  | x :: xs =>
    match listMax xs with
    | none => some x
    | some m => some (max x m)

/-- A pandas Series min (s.min()): none on an empty column, else the least
element. -/
def listMin {α : Type} [LinearOrder α] : List α → Option α
  | [] => none
  | x :: xs =>
    match listMin xs with
    | none => some x
    | some m => some (min x m)

/-- Bokeh's RdYlGn6 palette (main.py line 22), indexed by bin label 0..5. -/
def RdYlGn6 : List String :=
  ["#d73027", "#fc8d59", "#fee08b", "#d9ef8b", "#91cf60", "#1a9850"]

/-- The per-destination-state aggregate of _update_choropleth (main.py
404-409): rows matching the chosen origin, grouped by state_2, mean of fare. -/
def choroAgg (df : List Row) (origin_value : String) : List (String × ℚ) :=
  groupMeanBy (df.filter (fun r => decide (r.airport_name_concat_1 = origin_value)))
    Row.state_2 Row.fare

/-- The lower end of the np.linspace call (main.py 414-418): the aggregate's
minimum mean fare minus the roundoff guard 0.001. -/
def choroLo (agg : List (String × ℚ)) : ℚ :=
  (listMin (agg.map Prod.snd)).getD 0 - 1/1000

/-- The upper end of the np.linspace call (main.py 414-418): the aggregate's
maximum mean fare plus the roundoff guard 0.001. -/
def choroHi (agg : List (String × ℚ)) : ℚ :=
  (listMax (agg.map Prod.snd)).getD 0 + 1/1000

/-- Edge i of np.linspace(lo, hi, num=7): lo + i * (hi - lo) / 6. -/
def binEdge (lo hi : ℚ) (i : ℕ) : ℚ := lo + (i : ℚ) * (hi - lo) / 6

/-- The full edge list of np.linspace(lo, hi, num=7). -/
def binEdges (lo hi : ℚ) : List ℚ := (List.range 7).map (binEdge lo hi)

/-- The pd.cut assignment of main.py 420-424 with labels 0..5: the bin whose
right-closed interval (edge j, edge j+1] contains the value, none when the
value lies outside every bin. -/
def binIndex (lo hi x : ℚ) : Option ℕ :=
  if binEdge lo hi 0 < x ∧ x ≤ binEdge lo hi 1 then some 0
  else if binEdge lo hi 1 < x ∧ x ≤ binEdge lo hi 2 then some 1
  else if binEdge lo hi 2 < x ∧ x ≤ binEdge lo hi 3 then some 2
  else if binEdge lo hi 3 < x ∧ x ≤ binEdge lo hi 4 then some 3
  else if binEdge lo hi 4 < x ∧ x ≤ binEdge lo hi 5 then some 4
  else if binEdge lo hi 5 < x ∧ x ≤ binEdge lo hi 6 then some 5
  else none

/-- The colour given to one rendered state in the loop of main.py 432-442:
palette[d[name]] when the state name carries data (a pd.cut label applied to
its mean fare; in the source an out-of-range NaN label would fault, here it
yields no colour), the neutral placeholder white when it does not. -/
def choroColor (agg : List (String × ℚ)) (name : String) : Option String :=
  match List.lookup name agg with
  | some f => (binIndex (choroLo agg) (choroHi agg) f).map (fun j => RdYlGn6.getD j "")
  | none => some "#FFFFFF"

/-- The state_colors list of main.py 429-445: one colour per rendered state
code (the codes not excluded), through the state-name mapping. -/
def choroStateColors (codes excluded : List String) (state_mapping : String → String)
    (agg : List (String × ℚ)) : List (Option String) :=
  (codes.filter (fun c => decide (c ∉ excluded))).map
    (fun c => choroColor agg (state_mapping c))

/-- The quarter-end timestamp pd.PeriodIndex(year-Qquarter).to_timestamp(Q)
(main.py 569-574 and 1101-1104), encoded order-faithfully as the quarter
serial number 4 * year + (quarter - 1). -/
def dateOf (r : Row) : ℤ := 4 * r.year + (r.quarter - 1)

/-- One record of a Prophet forecast JSON table (ds a date, yhat a predicted
fare), or one point of the concatenated history-plus-forecast series (ds, y)
stored in self.prophet_fare_df and friends. -/
structure FcstRec where
  ds : ℤ
  y : ℚ
deriving DecidableEq

/-- The characters of a string up to the first space. -/
def firstTokenChars : List Char → List Char
  | [] => []
  | c :: cs => if c = ' ' then [] else c :: firstTokenChars cs

/-- Python origin.split()[0] (main.py 1091): the first whitespace-delimited
token, here for space-separated dropdown values such as
(SAN - San Diego International Airport), whose first token is the IATA code. -/
def firstToken (s : String) : String :=
  String.mk (firstTokenChars (s.data.dropWhile (fun c => c = ' ')))

/-- self.multi_airport_codes (main.py line 157): IATA codes with multiple
airports after remapping. -/
def multiAirportCodes : List String := ["ACY", "ORD", "DTW", "LGA", "IAD", "EGE"]

/-- Insertion step of the date sort below. -/
def insertRowByDate (r : Row) : List Row → List Row
  | [] => [r]
  | x :: xs => if dateOf r ≤ dateOf x then r :: x :: xs else x :: insertRowByDate r xs

/-- ts_df.sort_values(by=date) (main.py 1114). -/
def sortRowsByDate : List Row → List Row
  | [] => []
  | x :: xs => insertRowByDate x (sortRowsByDate xs)

/-- Insertion step of the integer sort below. -/
def insertIntAsc (d : ℤ) : List ℤ → List ℤ
  | [] => [d]
  | x :: xs => if d ≤ x then d :: x :: xs else x :: insertIntAsc d xs

/-- An ascending sort of integer dates. -/
def sortIntAsc : List ℤ → List ℤ
  | [] => []
  | x :: xs => insertIntAsc x (sortIntAsc xs)

/-- The sorted distinct dates of groupby(date, sort=True) (main.py 1108). -/
def tsDates (rows : List Row) : List ℤ := sortIntAsc ((rows.map dateOf).dedup)

/-- The mean of a fare column over the rows of one date group (main.py 1109). -/
def meanAt (rows : List Row) (d : ℤ) (val : Row → ℚ) : ℚ :=
  ((rows.filter (fun r => decide (dateOf r = d))).map val).sum /
    ((rows.filter (fun r => decide (dateOf r = d))).length : ℚ)

/-- The historical half of a stored Prophet series (main.py 1106-1117): for a
multi-airport route the per-date mean aggregation (groupby date, sorted keys),
otherwise the rows sorted by date, each mapped to a (date, fare) record. -/
def prophetHistSeries (rows : List Row) (multi : Bool) (val : Row → ℚ) : List FcstRec :=
  if multi then (tsDates rows).map (fun d => FcstRec.mk d (meanAt rows d val))
  else (sortRowsByDate rows).map (fun r => FcstRec.mk (dateOf r) (val r))

/-- The five serialized model pipelines loaded in __init__ (main.py 49-62), as
opaque prediction functions, plus the Decision Tree / Random Forest training
column list. -/
structure PredictEnv where
  xgbPredict : ModelInput → ℚ
  catPredict : ModelInput → ℚ
  dtPredict : List ℚ → ℚ
  rfPredict : List ℚ → ℚ
  decision_forest_model_columns : List String

/-- The six Prophet forecast tables of __init__ (main.py 64-76): three loaded
from JSON keyed by route string, and the three secondary tables for remapped
multi-airport routes. -/
structure ProphetTables where
  prophet_fare_dfs : List (String × List FcstRec)
  prophet_farelg_dfs : List (String × List FcstRec)
  prophet_farelow_dfs : List (String × List FcstRec)
  prophet_fare_dfs2 : List (String × List FcstRec)
  prophet_farelg_dfs2 : List (String × List FcstRec)
  prophet_farelow_dfs2 : List (String × List FcstRec)
deriving DecidableEq

/-- The tables exactly as __init__ builds them (main.py 64-76): the three JSON
tables as loaded, and the three secondary multi-airport tables set to the
empty dict (the source comment notes no valid route needed remapping, hence
empty dicts). -/
def initialProphetTables (f g h : List (String × List FcstRec)) : ProphetTables :=
  { prophet_fare_dfs := f
    prophet_farelg_dfs := g
    prophet_farelow_dfs := h
    prophet_fare_dfs2 := []
    prophet_farelg_dfs2 := []
    prophet_farelow_dfs2 := [] }

/-- The mutable state the analyze handler touches: the analysis_results Div
and the three cached Prophet series (main.py 184-187, None until a forecast
succeeds). -/
structure AppState where
  display : Display
  prophet_fare_df : Option (List FcstRec)
  prophet_fare_lg_df : Option (List FcstRec)
  prophet_fare_low_df : Option (List FcstRec)
deriving DecidableEq

/-- The observable outcome of one analyze click: a normal completion, the
select-valid-inputs advisory, the route-ineligible advisory (both printed at
main.py 1086, 1098-1099, 1121-1122 before an early return), or the generic
error notice of the final else (main.py 1215). -/
inductive Outcome where
  | ok
  | advisorySelect
  | ineligible
  | error
deriving DecidableEq

/-- The one-hot row the Decision Tree / Random Forest branch builds (main.py
1178-1198): a dummy column per categorical level, reconciled against the
training column list by inserting zeros for absent levels and reordering to
training order; the resulting vector holds 1 exactly at the training columns
matching the selected origin, destination and season. -/
def encodeTreeInput (model_columns : List String) (origin destination season : String) :
    List ℚ :=
  model_columns.map (fun c =>
    if c = "airport_name_concat_1_" ++ origin ∨ c = "airport_name_concat_2_" ++ destination ∨
        c = "season_" ++ season then (1 : ℚ) else 0)

/-- The forecast lookup the eligibility check consults (main.py 1107-1117):
the secondary (multi-airport) fare table when either 3-letter code is a
multi-airport code, else the main fare table, keyed by the src-dst route. -/
def prophetRouteLookup (tables : ProphetTables) (origin destination : String) :
    Option (List FcstRec) :=
  if firstToken origin ∈ multiAirportCodes ∨ firstToken destination ∈ multiAirportCodes then
    List.lookup (firstToken origin ++ "-" ++ firstToken destination) tables.prophet_fare_dfs2
  else
    List.lookup (firstToken origin ++ "-" ++ firstToken destination) tables.prophet_fare_dfs

/-- AirfarePredictionApp._handle_analyze_button_click (main.py 1024-1217).
XGBoost/CatBoost: filter, zero estimate on an empty selection else predict on
the first engineered row with the year overridden, update the display.
FB Prophet: zero the display first (line 1082), advise on a missing origin or
destination, report the route ineligible when the filtered data's maximum year
is not 2024 or the consulted forecast table has no entry for the route, else
store the three concatenated history-plus-forecast series. Decision Tree /
Random Forest: advise unless origin, destination and season are all set, else
predict on the reconciled one-hot row and update the display. Anything else:
the generic error notice. -/
def handleAnalyzeButtonClick (df : List Row) (env : PredictEnv) (tables : ProphetTables)
    (sel : Selection) (current_year : ℤ) (st : AppState) : AppState × Outcome :=
  if sel.model = "XGBoost" ∨ sel.model = "CatBoost" then
    match getFilteredData df sel false with
    | [] => ({ st with display := updateAnalysisResults 0 }, Outcome.ok)
    | r :: _ =>
      let estimated_price :=
        if sel.model = "XGBoost" then env.xgbPredict (modelInputOfRow r current_year)
        else if sel.model = "CatBoost" then env.catPredict (modelInputOfRow r current_year)
        else 0
      ({ st with display := updateAnalysisResults estimated_price }, Outcome.ok)
  else if sel.model = "FB Prophet" then
    let st1 : AppState := { st with display := updateAnalysisResults 0 }
    if sel.origin = "" ∨ sel.destination = "" then (st1, Outcome.advisorySelect)
    else if listMax ((getFilteredData df sel false).map Row.year) ≠ some 2024 then
      (st1, Outcome.ineligible)
    else
      match prophetRouteLookup tables sel.origin sel.destination with
      | none => (st1, Outcome.ineligible)
      | some fcst_df =>
        let multi : Bool :=
          decide (firstToken sel.origin ∈ multiAirportCodes ∨
            firstToken sel.destination ∈ multiAirportCodes)
        let route := firstToken sel.origin ++ "-" ++ firstToken sel.destination
        let fcst_lg :=
          if multi then List.lookup route tables.prophet_farelg_dfs2
          else List.lookup route tables.prophet_farelg_dfs
        let fcst_low :=
          if multi then List.lookup route tables.prophet_farelow_dfs2
          else List.lookup route tables.prophet_farelow_dfs
        ({ st1 with
            prophet_fare_df :=
              some (prophetHistSeries (getFilteredData df sel false) multi Row.fare ++ fcst_df)
            prophet_fare_lg_df :=
              some (prophetHistSeries (getFilteredData df sel false) multi Row.fare_lg ++
                fcst_lg.getD [])
            prophet_fare_low_df :=
              some (prophetHistSeries (getFilteredData df sel false) multi Row.fare_low ++
                fcst_low.getD []) },
          Outcome.ok)
  else if sel.model = "Decision Tree" ∨ sel.model = "Random Forest" then
    if sel.origin = "" ∨ sel.destination = "" ∨ sel.season = "" then
      (st, Outcome.advisorySelect)
    else
      let prediction :=
        if sel.model = "Decision Tree" then
          env.dtPredict (encodeTreeInput env.decision_forest_model_columns sel.origin
            sel.destination sel.season)
        else if sel.model = "Random Forest" then
          env.rfPredict (encodeTreeInput env.decision_forest_model_columns sel.origin
            sel.destination sel.season)
        else 0
      ({ st with display := updateAnalysisResults prediction }, Outcome.ok)
  else (st, Outcome.error)

/-- The whole reactive state of the dashboard: the four dropdown values and
the handler-mutable state (display, cached Prophet series). -/
structure SystemState where
  origin : String
  destination : String
  season : String
  model : String
  display : Display
  prophet_fare_df : Option (List FcstRec)
  prophet_fare_lg_df : Option (List FcstRec)
  prophet_fare_low_df : Option (List FcstRec)
deriving DecidableEq

/-- The Selection view of a system state. -/
def selOf (s : SystemState) : Selection :=
  { origin := s.origin, destination := s.destination, season := s.season, model := s.model }

/-- The AppState view of a system state. -/
def appStateOf (s : SystemState) : AppState :=
  { display := s.display
    prophet_fare_df := s.prophet_fare_df
    prophet_fare_lg_df := s.prophet_fare_lg_df
    prophet_fare_low_df := s.prophet_fare_low_df }

/-- The UI events the Reactive Controller observes: the four dropdown change
callbacks and the analyze button click (which reads the calendar year via
datetime.datetime.now().year, carried on the event). -/
inductive UiEvent where
  | setOrigin (v : String)
  | setDestination (v : String)
  | setSeason (v : String)
  | setModel (v : String)
  | clickAnalyze (current_year : ℤ)

/-- The state right after __init__ (main.py 41-189): every dropdown at the
empty value, the placeholder display text (line 148), no cached Prophet
series (lines 185-187). -/
def initState : SystemState :=
  { origin := ""
    destination := ""
    season := ""
    model := ""
    display := Display.placeholder
    prophet_fare_df := none
    prophet_fare_lg_df := none
    prophet_fare_low_df := none }

/-- One step of the Reactive Controller, with the outcome of the triggered
handler. _handle_origin_input_change and _handle_destination_input_change
(main.py 933-990) clear the cached Prophet series and redraw; changing the
season or the model resets the displayed prediction to zero (main.py 998,
1013), the model change also clearing the Prophet series (main.py 1016-1018);
the analyze click runs _handle_analyze_button_click on the current selection
and state. Chart redraws mutate no selection or prediction state. -/
def stepWithOutcome (df : List Row) (env : PredictEnv) (tables : ProphetTables)
    (s : SystemState) : UiEvent → SystemState × Outcome
  | UiEvent.setOrigin v =>
    ({ s with
        origin := v
        prophet_fare_df := none
        prophet_fare_lg_df := none
        prophet_fare_low_df := none }, Outcome.ok)
  | UiEvent.setDestination v =>
    ({ s with
        destination := v
        prophet_fare_df := none
        prophet_fare_lg_df := none
        prophet_fare_low_df := none }, Outcome.ok)
  | UiEvent.setSeason v =>
    ({ s with season := v, display := updateAnalysisResults 0 }, Outcome.ok)
  | UiEvent.setModel v =>
    ({ s with
        model := v
        display := updateAnalysisResults 0
        prophet_fare_df := none
        prophet_fare_lg_df := none
        prophet_fare_low_df := none }, Outcome.ok)
  | UiEvent.clickAnalyze current_year =>
    let res := handleAnalyzeButtonClick df env tables (selOf s) current_year (appStateOf s)
    ({ s with
        display := res.1.display
        prophet_fare_df := res.1.prophet_fare_df
        prophet_fare_lg_df := res.1.prophet_fare_lg_df
        prophet_fare_low_df := res.1.prophet_fare_low_df }, res.2)

/-- The state reached after one step, outcome dropped. -/
def step (df : List Row) (env : PredictEnv) (tables : ProphetTables)
    (s : SystemState) (e : UiEvent) : SystemState :=
  (stepWithOutcome df env tables s e).1

/-- The states the dashboard can actually be in: the initial state and
everything reachable from it through UI events. -/
inductive Reachable (df : List Row) (env : PredictEnv) (tables : ProphetTables) :
    SystemState → Prop where
  | init : Reachable df env tables initState
  | next (s : SystemState) (e : UiEvent) :
      Reachable df env tables s → Reachable df env tables (step df env tables s e)

/-- The Prophet overlay filter of _redraw_holoviews_line_chart (main.py
636-698): the stored series restricted to dates at or after the maximum
historical date of the filtered data (ds >= max_date; on an empty filtered
frame the pandas NaT comparison keeps nothing). -/
def lineChartForecastContinuation (filtered : List Row) (series : List FcstRec) :
    List FcstRec :=
  match listMax (filtered.map dateOf) with
  | none => []
  | some m => series.filter (fun rec => decide (m ≤ rec.ds))

/-- The three rendered forecast continuations of the line chart redraw
(overall, largest-carrier, lowest-cost-carrier; main.py 652-712), computed
over the filtered data of the current selection (main.py 568). -/
def redrawLineChartForecasts (df : List Row) (sel : Selection)
    (pf pflg pflow : List FcstRec) : List FcstRec × List FcstRec × List FcstRec :=
  (lineChartForecastContinuation (getFilteredData df sel false) pf,
   lineChartForecastContinuation (getFilteredData df sel false) pflg,
   lineChartForecastContinuation (getFilteredData df sel false) pflow)

/-- A sample route out of Chicago, a multi-airport IATA code, with data through
2024. -/
def rowOrdSan : Row :=
  { airport_name_concat_1 := "ORD - Chicago OHare International Airport"
    airport_name_concat_2 := "SAN - San Diego International Airport"
    airport_iata_1 := "ORD"
    airport_iata_2 := "SAN"
    state_1 := "Illinois"
    state_2 := "California"
    latitude_1 := 42
    longitude_1 := -88
    latitude_2 := 33
    longitude_2 := -117
    nsmiles := 1723
    year := 2024
    quarter := 1
    season := "Winter"
    fare := 260
    fare_lg := 300
    fare_low := 200
    carrier_lg_name_concat := "UA - United Airlines"
    carrier_low_name_concat := "NK - Spirit Airlines" }

/-- Opaque stand-ins for the five loaded model pipelines (every prediction 0)
and an empty training column list. -/
def envW : PredictEnv :=
  { xgbPredict := fun _ => 0
    catPredict := fun _ => 0
    dtPredict := fun _ => 0
    rfPredict := fun _ => 0
    decision_forest_model_columns := [] }

/-- Sample forecast tables as loaded at startup: one route in the main fare
table, empty secondary tables. -/
def tablesW : ProphetTables :=
  initialProphetTables [("SAN-LAX", [FcstRec.mk 8100 210])] [] []

/-- A concrete reachable state for the C3 witness: set the origin. -/
def sC3a : SystemState :=
  step [rowSanSfo] envW tablesW initState
    (UiEvent.setOrigin "SAN - San Diego International Airport")

/-- Then set the destination. -/
def sC3b : SystemState :=
  step [rowSanSfo] envW tablesW sC3a
    (UiEvent.setDestination "SFO - San Francisco International Airport")

/-- Then select the FB Prophet model. -/
def sC3c : SystemState :=
  step [rowSanSfo] envW tablesW sC3b (UiEvent.setModel "FB Prophet")

/-- A selection whose origin matches no Data Store row, with the XGBoost
model. -/
def selNoMatch : Selection :=
  { origin := "ZZZ - Nowhere Airport"
    destination := ""
    season := ""
    model := "XGBoost" }

/-- A pre-click state displaying an earlier estimate. -/
def stEstimate : AppState :=
  { display := Display.estimate 123
    prophet_fare_df := none
    prophet_fare_lg_df := none
    prophet_fare_low_df := none }

/-- A selection of the ORD-SAN route (ORD is a multi-airport code) with the
FB Prophet model. -/
def selOrdSan : Selection :=
  { origin := "ORD - Chicago OHare International Airport"
    destination := "SAN - San Diego International Airport"
    season := ""
    model := "FB Prophet" }

/-- C1: For every Data Store, selection and season-filtering flag, a row is in
the Filter Engine's output exactly when it is a Data Store row satisfying the
equality predicate of each non-empty selection field (origin on
airport_name_concat_1, destination on airport_name_concat_2, and season when
season filtering is requested); in particular with origin and destination both
set every output row carries both values, and with all fields empty the full
Data Store is returned unchanged. -/
theorem filter_engine_subset_c1 (df : List Row) (sel : Selection) (fs : Bool) (r : Row) :
    (r ∈ getFilteredData df sel fs ↔
      r ∈ df ∧ (sel.origin ≠ "" → r.airport_name_concat_1 = sel.origin) ∧
        (sel.destination ≠ "" → r.airport_name_concat_2 = sel.destination) ∧
        (fs = true → sel.season ≠ "" → r.season = sel.season)) ∧
    (sel.origin ≠ "" → sel.destination ≠ "" → ∀ q ∈ getFilteredData df sel fs,
      q.airport_name_concat_1 = sel.origin ∧ q.airport_name_concat_2 = sel.destination) ∧
    (sel.origin = "" → sel.destination = "" → sel.season = "" →
      getFilteredData df sel fs = df) := by
  have main : ∀ q : Row, q ∈ getFilteredData df sel fs ↔
      q ∈ df ∧ (sel.origin ≠ "" → q.airport_name_concat_1 = sel.origin) ∧
        (sel.destination ≠ "" → q.airport_name_concat_2 = sel.destination) ∧
        (fs = true → sel.season ≠ "" → q.season = sel.season) := by
    intro q
    by_cases ho : sel.origin = "" <;> by_cases hd : sel.destination = "" <;>
      by_cases hs : sel.season = "" <;> cases fs <;>
        simp [getFilteredData, ho, hd, hs, List.mem_filter] <;> tauto
  refine ⟨main r, ?_, ?_⟩
  · intro ho hd q hq
    have h := (main q).mp hq
    exact ⟨h.2.1 ho, h.2.2.1 hd⟩
  · intro h1 h2 h3
    cases fs <;> simp [getFilteredData, h1, h2, h3]

/-- Witness for C1 at a concrete input: with origin and destination set to the
SAN-LAX route and season filtering on, the sample row on that route passes the
filter (membership proved through the characterisation of C1) and the filter
output evaluates to exactly that row. -/
theorem filter_engine_subset_c1_witness :
    rowSanLax ∈ getFilteredData [rowSanLax, rowSanSfo] selSanLax true ∧
      getFilteredData [rowSanLax, rowSanSfo] selSanLax true = [rowSanLax] :=
  ⟨(filter_engine_subset_c1 [rowSanLax, rowSanSfo] selSanLax true rowSanLax).1.mpr
      (by decide), by decide⟩

/-- C2 (evidence of the code bug): with origin set and destination unset,
every chart redraw computes opacity 0.8, not the claimed placeholder opacity
0, because the destination test compares the widget object itself with the
empty string (a comparison that is always False) instead of its value. -/
theorem redraw_alpha_destination_unset_c2 :
    redrawAlpha (Select.mk "SAN - San Diego International Airport") (Select.mk "") = 0.8 ∧
      (0.8 : ℚ) ≠ 0 := by
  constructor
  · rw [redrawAlpha, if_neg (by decide)]
  · norm_num

/-- C10: the result display shows the empty placeholder exactly when the value
passed to the update equals 0; in particular the reset call (value 0) and a
genuine model prediction of exactly 0 produce the same placeholder rendering,
indistinguishable at the UI. -/
theorem display_placeholder_iff_zero_c10 (value : ℚ) :
    (updateAnalysisResults value = Display.placeholder ↔ value = 0) ∧
      updateAnalysisResults 0 = Display.placeholder := by
  constructor
  · unfold updateAnalysisResults
    split_ifs with h <;> simp [h]
  · simp [updateAnalysisResults]

/-- Witness for C10 at concrete inputs: value 0 renders the placeholder (through
the iff of C10) and a nonzero value renders the two-decimal estimate. -/
theorem display_placeholder_iff_zero_c10_witness :
    updateAnalysisResults 0 = Display.placeholder ∧
      updateAnalysisResults 250 = Display.estimate 250 :=
  ⟨(display_placeholder_iff_zero_c10 0).1.mpr rfl, by decide⟩

/-- C4 (counterexample): at distance exactly 500 the code's pd.cut binning
(right-closed intervals) labels the row short, while the claim's reading
(short strictly below 500, medium below 1500) would label it medium. -/
theorem distance_bin_boundary_counterexample_c4 :
    distanceBin 500 = some "short" ∧ claimedDistanceBin 500 = some "medium" ∧
      distanceBin 500 ≠ claimedDistanceBin 500 := by
  refine ⟨?_, ?_, ?_⟩ <;> decide

/-- C4 as amended: feature derivation computes lat_diff and lon_diff as
destination-minus-origin deltas, same_state as a 0/1 flag for equal state
codes, route as the dash-joined IATA codes, and bins nsmiles into the four
right-closed categories short (0, 500], medium (500, 1500], long (1500, 3000],
ultra (3000, 6000] (distances outside (0, 6000] receive no category); and the
model input built for inference carries the current calendar year in place of
the row's year. -/
theorem feature_engineering_amended_c4 (r : Row) (y : ℤ) :
    (featureEngineeringRow r).lat_diff = r.latitude_2 - r.latitude_1 ∧
    (featureEngineeringRow r).lon_diff = r.longitude_2 - r.longitude_1 ∧
    (featureEngineeringRow r).same_state = (if r.state_1 = r.state_2 then (1:ℤ) else 0) ∧
    (featureEngineeringRow r).route = r.airport_iata_1 ++ "-" ++ r.airport_iata_2 ∧
    ((featureEngineeringRow r).distance_bin = some "short" ↔
      0 < r.nsmiles ∧ r.nsmiles ≤ 500) ∧
    ((featureEngineeringRow r).distance_bin = some "medium" ↔
      500 < r.nsmiles ∧ r.nsmiles ≤ 1500) ∧
    ((featureEngineeringRow r).distance_bin = some "long" ↔
      1500 < r.nsmiles ∧ r.nsmiles ≤ 3000) ∧
    ((featureEngineeringRow r).distance_bin = some "ultra" ↔
      3000 < r.nsmiles ∧ r.nsmiles ≤ 6000) ∧
    (modelInputOfRow r y).year = y := by
  refine ⟨rfl, rfl, rfl, rfl, ?_, ?_, ?_, ?_, rfl⟩ <;>
  · show distanceBin r.nsmiles = _ ↔ _
    unfold distanceBin
    split_ifs with h1 h2 h3 h4 <;> simp_all <;> intros <;> exfalso <;>
      (try obtain ⟨u1, u2⟩ := h1) <;> (try obtain ⟨u3, u4⟩ := h2) <;>
      (try obtain ⟨u5, u6⟩ := h3) <;> (try obtain ⟨u7, u8⟩ := h4) <;> linarith

/-- C6: for every selection and both carrier variants, the bar-chart data has
at most 10 entries, is sorted in descending order of mean fare, and every entry
has a strictly positive mean fare. -/
theorem bar_chart_top10_desc_c6 (df : List Row) (sel : Selection) (carrier_type : String) :
    (redrawBarChartData df sel carrier_type).length ≤ 10 ∧
      List.Sorted fareDescRel (redrawBarChartData df sel carrier_type) ∧
      ∀ p ∈ redrawBarChartData df sel carrier_type, 0 < p.2 := by
  unfold redrawBarChartData
  refine ⟨?_, ?_, ?_⟩
  · exact le_trans (List.length_filter_le _ _) (by simpa using List.length_take_le 10 _)
  · exact List.Pairwise.sublist ((List.filter_sublist _).trans (List.take_sublist _ _))
      (List.sorted_insertionSort _ _)
  · intro p hp
    exact of_decide_eq_true (List.mem_filter.mp hp).2

/-- Every member of a list is at most its listMax. -/
theorem le_listMax_of_mem {α : Type} [LinearOrder α] :
    ∀ {l : List α} {x : α}, x ∈ l → ∃ m, listMax l = some m ∧ x ≤ m := by
  intro l
  induction l with
  | nil => intro x hx; cases hx
  | cons y ys ih =>
    intro x hx
    rcases List.mem_cons.mp hx with h | h
    · subst h
      cases hys : listMax ys with
      | none => exact ⟨x, by simp [listMax, hys], le_refl x⟩
      | some m => exact ⟨max x m, by simp [listMax, hys], le_max_left x m⟩
    · obtain ⟨m, hm, hxm⟩ := ih h
      exact ⟨max y m, by simp [listMax, hm], le_trans hxm (le_max_right y m)⟩

/-- Every member of a list is at least its listMin. -/
theorem listMin_le_of_mem {α : Type} [LinearOrder α] :
    ∀ {l : List α} {x : α}, x ∈ l → ∃ m, listMin l = some m ∧ m ≤ x := by
  intro l
  induction l with
  | nil => intro x hx; cases hx
  | cons y ys ih =>
    intro x hx
    rcases List.mem_cons.mp hx with h | h
    · subst h
      cases hys : listMin ys with
      | none => exact ⟨x, by simp [listMin, hys], le_refl x⟩
      | some m => exact ⟨min x m, by simp [listMin, hys], min_le_left x m⟩
    · obtain ⟨m, hm, hxm⟩ := ih h
      exact ⟨min y m, by simp [listMin, hm], le_trans (min_le_right y m) hxm⟩

/-- A successful association-list lookup returns a pair of the list. -/
theorem mem_of_lookup_eq_some {α β : Type} [BEq α] [LawfulBEq α] :
    ∀ {l : List (α × β)} {a : α} {b : β}, List.lookup a l = some b → (a, b) ∈ l := by
  intro l
  induction l with
  | nil => intro a b h; cases h
  | cons p t ih =>
    intro a b h
    obtain ⟨k, v⟩ := p
    rw [List.lookup_cons] at h
    cases hk : a == k with
    | true =>
      rw [hk] at h
      have hab : a = k := eq_of_beq hk
      subst hab
      injection h with h
      subst h
      exact List.mem_cons_self _ _
    | false =>
      rw [hk] at h
      exact List.mem_cons_of_mem _ (ih h)

theorem binEdge_zero (lo hi : ℚ) : binEdge lo hi 0 = lo := by
  simp [binEdge]

theorem binEdge_six (lo hi : ℚ) : binEdge lo hi 6 = hi := by
  unfold binEdge
  push_cast
  ring

/-- Any value strictly inside (lo, hi] receives exactly one pd.cut bin, and the
bin's bounds contain the value. -/
theorem binIndex_total (lo hi x : ℚ) (hlo : lo < x) (hhi : x ≤ hi) :
    ∃ j : ℕ, j < 6 ∧ binIndex lo hi x = some j ∧
      binEdge lo hi j < x ∧ x ≤ binEdge lo hi (j + 1) := by
  unfold binIndex
  split_ifs with h1 h2 h3 h4 h5 h6
  · exact ⟨0, by norm_num, rfl, h1.1, h1.2⟩
  · exact ⟨1, by norm_num, rfl, h2.1, h2.2⟩
  · exact ⟨2, by norm_num, rfl, h3.1, h3.2⟩
  · exact ⟨3, by norm_num, rfl, h4.1, h4.2⟩
  · exact ⟨4, by norm_num, rfl, h5.1, h5.2⟩
  · exact ⟨5, by norm_num, rfl, h6.1, h6.2⟩
  · exfalso
    have e0 : binEdge lo hi 0 < x := by rw [binEdge_zero]; exact hlo
    have e1 : binEdge lo hi 1 < x := lt_of_not_le (fun hle => h1 ⟨e0, hle⟩)
    have e2 : binEdge lo hi 2 < x := lt_of_not_le (fun hle => h2 ⟨e1, hle⟩)
    have e3 : binEdge lo hi 3 < x := lt_of_not_le (fun hle => h3 ⟨e2, hle⟩)
    have e4 : binEdge lo hi 4 < x := lt_of_not_le (fun hle => h4 ⟨e3, hle⟩)
    have e5 : binEdge lo hi 5 < x := lt_of_not_le (fun hle => h5 ⟨e4, hle⟩)
    have e6 : binEdge lo hi 6 < x := lt_of_not_le (fun hle => h6 ⟨e5, hle⟩)
    rw [binEdge_six] at e6
    exact absurd hhi (not_le.mpr e6)

/-- C5: for a non-empty per-destination-state aggregate, the linspace edge list
has 7 points giving 6 uniformly spaced bins (the palette has 6 colours); every
state with data is assigned a bin whose computed bounds contain its mean fare
and receives the corresponding palette colour; and every rendered state with
no matching data receives the neutral placeholder colour white. -/
theorem choropleth_bins_c5 (df : List Row) (origin_value : String)
    (hne : choroAgg df origin_value ≠ []) :
    (binEdges (choroLo (choroAgg df origin_value)) (choroHi (choroAgg df origin_value))).length
        = 7 ∧
      RdYlGn6.length = 6 ∧
      (∀ i : ℕ, i < 6 →
        binEdge (choroLo (choroAgg df origin_value)) (choroHi (choroAgg df origin_value)) (i + 1)
            - binEdge (choroLo (choroAgg df origin_value)) (choroHi (choroAgg df origin_value)) i
          = (choroHi (choroAgg df origin_value) - choroLo (choroAgg df origin_value)) / 6) ∧
      (∀ name f, List.lookup name (choroAgg df origin_value) = some f →
        ∃ j : ℕ, j < 6 ∧
          binIndex (choroLo (choroAgg df origin_value)) (choroHi (choroAgg df origin_value)) f
              = some j ∧
            binEdge (choroLo (choroAgg df origin_value)) (choroHi (choroAgg df origin_value)) j
              < f ∧
            f ≤ binEdge (choroLo (choroAgg df origin_value))
                (choroHi (choroAgg df origin_value)) (j + 1) ∧
            choroColor (choroAgg df origin_value) name = some (RdYlGn6.getD j "")) ∧
      (∀ name, List.lookup name (choroAgg df origin_value) = none →
        choroColor (choroAgg df origin_value) name = some "#FFFFFF") := by
  refine ⟨by simp [binEdges], rfl, ?_, ?_, ?_⟩
  · intro i _
    unfold binEdge
    push_cast
    ring
  · intro name f hlook
    have hpair : (name, f) ∈ choroAgg df origin_value := mem_of_lookup_eq_some hlook
    have hmem : f ∈ (choroAgg df origin_value).map Prod.snd :=
      List.mem_map_of_mem Prod.snd hpair
    obtain ⟨mn, hmn, hmnle⟩ := listMin_le_of_mem hmem
    obtain ⟨mx, hmx, hlemx⟩ := le_listMax_of_mem hmem
    have hlo : choroLo (choroAgg df origin_value) < f := by
      unfold choroLo
      rw [hmn]
      simp only [Option.getD_some]
      linarith
    have hhi : f ≤ choroHi (choroAgg df origin_value) := by
      unfold choroHi
      rw [hmx]
      simp only [Option.getD_some]
      linarith
    obtain ⟨j, hj6, hbin, hlt, hle⟩ :=
      binIndex_total (choroLo (choroAgg df origin_value))
        (choroHi (choroAgg df origin_value)) f hlo hhi
    refine ⟨j, hj6, hbin, hlt, hle, ?_⟩
    unfold choroColor
    rw [hlook]
    show (binIndex (choroLo (choroAgg df origin_value))
        (choroHi (choroAgg df origin_value)) f).map (fun j => RdYlGn6.getD j "")
      = some (RdYlGn6.getD j "")
    rw [hbin]
    rfl
  · intro name hlook
    unfold choroColor
    rw [hlook]

/-- Witness for C5 at a concrete input: the sample Data Store gives the SAN
origin a non-empty per-state aggregate (discharged by evaluation), and the
edge list produced for it indeed has 7 points. -/
theorem choropleth_bins_c5_witness :
    (binEdges
        (choroLo (choroAgg [rowSanLax, rowSanSfo] "SAN - San Diego International Airport"))
        (choroHi (choroAgg [rowSanLax, rowSanSfo] "SAN - San Diego International Airport"))).length
      = 7 :=
  (choropleth_bins_c5 [rowSanLax, rowSanSfo] "SAN - San Diego International Airport"
    (by decide)).1

/-- Resetting the display with value 0 renders the placeholder. -/
theorem updateAnalysisResults_zero : updateAnalysisResults 0 = Display.placeholder := by
  simp [updateAnalysisResults]

/-- In the FB Prophet branch the handler zeroes the display first (main.py
1082), so after any analyze click with the FB Prophet model the display is the
placeholder, whatever else the branch does. -/
theorem handler_prophet_display (df : List Row) (env : PredictEnv) (tables : ProphetTables)
    (sel : Selection) (y : ℤ) (st : AppState) (hm : sel.model = "FB Prophet") :
    (handleAnalyzeButtonClick df env tables sel y st).1.display = Display.placeholder := by
  have hx : ¬(sel.model = "XGBoost" ∨ sel.model = "CatBoost") := by rw [hm]; simp
  unfold handleAnalyzeButtonClick
  rw [if_neg hx, if_pos hm]
  split_ifs with h1 h2
  · simp [updateAnalysisResults]
  · simp [updateAnalysisResults]
  · cases prophetRouteLookup tables sel.origin sel.destination with
    | none => simp [updateAnalysisResults]
    | some fdf => simp [updateAnalysisResults]

/-- Reachability invariant: whenever the model dropdown holds FB Prophet, the
displayed prediction is already the placeholder (every path that selects the
FB Prophet model, or clicks analyze with it, resets the display). -/
theorem reachable_model_prophet_display (df : List Row) (env : PredictEnv)
    (tables : ProphetTables) :
    ∀ s : SystemState, Reachable df env tables s →
      s.model = "FB Prophet" → s.display = Display.placeholder := by
  intro s hr
  induction hr with
  | init => intro h; exact absurd h (by decide)
  | next s0 e hr0 ih =>
    cases e with
    | setOrigin v =>
      intro h
      have h0 : s0.model = "FB Prophet" := by
        simpa [step, stepWithOutcome] using h
      simpa [step, stepWithOutcome] using ih h0
    | setDestination v =>
      intro h
      have h0 : s0.model = "FB Prophet" := by
        simpa [step, stepWithOutcome] using h
      simpa [step, stepWithOutcome] using ih h0
    | setSeason v =>
      intro h
      simp [step, stepWithOutcome, updateAnalysisResults]
    | setModel v =>
      intro h
      simp [step, stepWithOutcome, updateAnalysisResults]
    | clickAnalyze y =>
      intro h
      have h0 : s0.model = "FB Prophet" := by
        simpa [step, stepWithOutcome] using h
      have hsel : (selOf s0).model = "FB Prophet" := h0
      have hd := handler_prophet_display df env tables (selOf s0) y (appStateOf s0) hsel
      simpa [step, stepWithOutcome] using hd

/-- The FB Prophet branch on an ineligible route (main.py 1079-1123): the
handler resets the display to the placeholder, reports the route ineligible,
and leaves the three cached Prophet series exactly as they were. -/
theorem handler_prophet_ineligible (df : List Row) (env : PredictEnv) (tables : ProphetTables)
    (sel : Selection) (y : ℤ) (st : AppState)
    (hm : sel.model = "FB Prophet") (ho : sel.origin ≠ "") (hd : sel.destination ≠ "")
    (hin : listMax ((getFilteredData df sel false).map Row.year) ≠ some 2024 ∨
      prophetRouteLookup tables sel.origin sel.destination = none) :
    handleAnalyzeButtonClick df env tables sel y st =
      ({ st with display := Display.placeholder }, Outcome.ineligible) := by
  have hx : ¬(sel.model = "XGBoost" ∨ sel.model = "CatBoost") := by rw [hm]; simp
  unfold handleAnalyzeButtonClick
  rw [if_neg hx, if_pos hm, if_neg (by simp [ho, hd])]
  by_cases hy : listMax ((getFilteredData df sel false).map Row.year) = some 2024
  · have hlook : prophetRouteLookup tables sel.origin sel.destination = none := by
      rcases hin with h | h
      · exact absurd hy h
      · exact h
    rw [if_neg (not_not_intro hy)]
    simp only [hlook]
    simp [updateAnalysisResults]
  · rw [if_pos hy]
    simp [updateAnalysisResults]

/-- C3: from any reachable state with origin and destination set and the FB
Prophet model selected, if the filtered route's maximum year is not 2024 or no
forecast exists for the route key, the analyze click reports the route
ineligible (an advisory, not an exception: the step is a total function) and
leaves the whole state — the prediction display and the cached forecast/chart
series — exactly as it was just before the click. -/
theorem prophet_ineligible_preserves_state_c3 (df : List Row) (env : PredictEnv)
    (tables : ProphetTables) (s : SystemState) (y : ℤ)
    (hr : Reachable df env tables s)
    (hm : s.model = "FB Prophet") (ho : s.origin ≠ "") (hd : s.destination ≠ "")
    (hin : listMax ((getFilteredData df (selOf s) false).map Row.year) ≠ some 2024 ∨
      prophetRouteLookup tables s.origin s.destination = none) :
    stepWithOutcome df env tables s (UiEvent.clickAnalyze y) = (s, Outcome.ineligible) := by
  have hdisp := reachable_model_prophet_display df env tables s hr hm
  have hh := handler_prophet_ineligible df env tables (selOf s) y (appStateOf s)
    hm ho hd hin
  simp only [stepWithOutcome, hh]
  rw [← hdisp]
  rfl

/-- C7: with the XGBoost or CatBoost model selected and an empty filtered
selection, the analyze handler completes normally (no exception), takes the
zero sentinel estimate, and shows the placeholder (no-data) display. -/
theorem tree_ensemble_empty_placeholder_c7 (df : List Row) (env : PredictEnv)
    (tables : ProphetTables) (sel : Selection) (y : ℤ) (st : AppState)
    (hm : sel.model = "XGBoost" ∨ sel.model = "CatBoost")
    (he : getFilteredData df sel false = []) :
    handleAnalyzeButtonClick df env tables sel y st =
      ({ st with display := Display.placeholder }, Outcome.ok) := by
  unfold handleAnalyzeButtonClick
  rw [if_pos hm, he]
  simp [updateAnalysisResults]

/-- C9: with the FB Prophet model, origin and destination set, and either
3-letter code among the multi-airport codes, the handler consults the
secondary forecast tables, which the loader leaves empty; the route is
therefore always reported ineligible and no forecast series is stored (the
three cached series keep their prior values). -/
theorem multi_airport_ineligible_c9 (df : List Row) (env : PredictEnv)
    (f g h : List (String × List FcstRec)) (sel : Selection) (y : ℤ) (st : AppState)
    (hm : sel.model = "FB Prophet") (ho : sel.origin ≠ "") (hd : sel.destination ≠ "")
    (hmulti : firstToken sel.origin ∈ multiAirportCodes ∨
      firstToken sel.destination ∈ multiAirportCodes) :
    (handleAnalyzeButtonClick df env (initialProphetTables f g h) sel y st).2
        = Outcome.ineligible ∧
      (handleAnalyzeButtonClick df env (initialProphetTables f g h) sel y st).1.prophet_fare_df
        = st.prophet_fare_df ∧
      (handleAnalyzeButtonClick df env (initialProphetTables f g h) sel y st).1.prophet_fare_lg_df
        = st.prophet_fare_lg_df ∧
      (handleAnalyzeButtonClick df env (initialProphetTables f g h) sel y st).1.prophet_fare_low_df
        = st.prophet_fare_low_df := by
  by_cases hy : listMax ((getFilteredData df sel false).map Row.year) = some 2024
  · have hlook : prophetRouteLookup (initialProphetTables f g h) sel.origin sel.destination
        = none := by
      unfold prophetRouteLookup initialProphetTables
      rw [if_pos hmulti]
      rfl
    rw [handler_prophet_ineligible df env (initialProphetTables f g h) sel y st hm ho hd
      (Or.inr hlook)]
    exact ⟨rfl, rfl, rfl, rfl⟩
  · rw [handler_prophet_ineligible df env (initialProphetTables f g h) sel y st hm ho hd
      (Or.inl hy)]
    exact ⟨rfl, rfl, rfl, rfl⟩

/-- C8: every point of every rendered forecast continuation (overall,
largest-carrier, lowest-cost-carrier) has a date at or after every historical
date of the filtered route — the continuation never starts before the last
historical date. -/
theorem forecast_after_last_history_c8 (df : List Row) (sel : Selection)
    (pf pflg pflow : List FcstRec) (rec : FcstRec)
    (h : rec ∈ (redrawLineChartForecasts df sel pf pflg pflow).1 ∨
      rec ∈ (redrawLineChartForecasts df sel pf pflg pflow).2.1 ∨
      rec ∈ (redrawLineChartForecasts df sel pf pflg pflow).2.2) :
    ∀ r ∈ getFilteredData df sel false, dateOf r ≤ rec.ds := by
  intro r hr
  have key : ∀ series : List FcstRec,
      rec ∈ lineChartForecastContinuation (getFilteredData df sel false) series →
        dateOf r ≤ rec.ds := by
    intro series hmem
    unfold lineChartForecastContinuation at hmem
    cases hmax : listMax ((getFilteredData df sel false).map dateOf) with
    | none =>
      rw [hmax] at hmem
      cases hmem
    | some m =>
      rw [hmax] at hmem
      have h1 : m ≤ rec.ds := of_decide_eq_true (List.mem_filter.mp hmem).2
      have h2 : dateOf r ∈ (getFilteredData df sel false).map dateOf :=
        List.mem_map_of_mem dateOf hr
      obtain ⟨m2, hm2, hle⟩ := le_listMax_of_mem h2
      rw [hmax] at hm2
      injection hm2 with hm2
      subst hm2
      exact le_trans hle h1
  rcases h with h | h | h
  · exact key pf h
  · exact key pflg h
  · exact key pflow h

/-- Witness for C3 at a concrete input: in the reachable state that selected
the SAN-SFO route and the FB Prophet model over a Data Store whose route data
stops in 2023, the analyze click returns the state unchanged with the
ineligible advisory. -/
theorem prophet_ineligible_preserves_state_c3_witness :
    stepWithOutcome [rowSanSfo] envW tablesW sC3c (UiEvent.clickAnalyze 2025)
      = (sC3c, Outcome.ineligible) :=
  prophet_ineligible_preserves_state_c3 [rowSanSfo] envW tablesW sC3c 2025
    (Reachable.next sC3b (UiEvent.setModel "FB Prophet")
      (Reachable.next sC3a
        (UiEvent.setDestination "SFO - San Francisco International Airport")
        (Reachable.next initState
          (UiEvent.setOrigin "SAN - San Diego International Airport")
          Reachable.init)))
    (by decide) (by decide) (by decide) (Or.inl (by decide))

/-- Witness for C7 at a concrete input: with XGBoost selected and a selection
matching no row, the click returns normally and the display shows the
placeholder. -/
theorem tree_ensemble_empty_placeholder_c7_witness :
    handleAnalyzeButtonClick [rowSanLax] envW tablesW selNoMatch 2025 stEstimate
      = ({ stEstimate with display := Display.placeholder }, Outcome.ok) :=
  tree_ensemble_empty_placeholder_c7 [rowSanLax] envW tablesW selNoMatch 2025 stEstimate
    (Or.inl rfl) (by decide)

/-- Witness for C9 at a concrete input: on the ORD-SAN route (data through
2024, so the year check passes, and an entry for ORD-SAN even sits in the main
fare table) the click still reports ineligible, because ORD routes consult the
empty secondary tables; the cached series are untouched. -/
theorem multi_airport_ineligible_c9_witness :
    (handleAnalyzeButtonClick [rowOrdSan] envW
        (initialProphetTables [("ORD-SAN", [FcstRec.mk 8100 260])] [] [])
        selOrdSan 2025 stEstimate).2 = Outcome.ineligible ∧
      (handleAnalyzeButtonClick [rowOrdSan] envW
          (initialProphetTables [("ORD-SAN", [FcstRec.mk 8100 260])] [] [])
          selOrdSan 2025 stEstimate).1.prophet_fare_df = stEstimate.prophet_fare_df ∧
      (handleAnalyzeButtonClick [rowOrdSan] envW
          (initialProphetTables [("ORD-SAN", [FcstRec.mk 8100 260])] [] [])
          selOrdSan 2025 stEstimate).1.prophet_fare_lg_df = stEstimate.prophet_fare_lg_df ∧
      (handleAnalyzeButtonClick [rowOrdSan] envW
          (initialProphetTables [("ORD-SAN", [FcstRec.mk 8100 260])] [] [])
          selOrdSan 2025 stEstimate).1.prophet_fare_low_df = stEstimate.prophet_fare_low_df :=
  multi_airport_ineligible_c9 [rowOrdSan] envW [("ORD-SAN", [FcstRec.mk 8100 260])] [] []
    selOrdSan 2025 stEstimate rfl (by decide) (by decide) (Or.inl (by decide))

/-- Witness for C8 at a concrete input: with the SAN-LAX route (last
historical quarter 2024-Q2, serial 8097) and a forecast point at serial 8100,
the point lies in the rendered overall continuation and its date is at or
after the historical row's date. -/
theorem forecast_after_last_history_c8_witness :
    dateOf rowSanLax ≤ (FcstRec.mk 8100 210).ds :=
  forecast_after_last_history_c8 [rowSanLax] selSanLax [FcstRec.mk 8100 210] [] []
    (FcstRec.mk 8100 210) (Or.inl (by decide)) rowSanLax (by decide)

end AirfareApp
